import Mathlib

/-!
Shallow embedding of the Rubel Engine state-and-command core:
the entity store of `context/AppContext.tsx` and the command
interpreter `processCommand` of `app/(tabs)/command.tsx`.

Conventions of the embedding:
* JavaScript strings become Lean `String`; array state becomes `List`.
* The ambient generators `uid()` (`Math.random().toString(36).slice(2) +
  Date.now().toString(36)`), `new Date().toISOString()`,
  `new Date().toLocaleString()` and `Platform.OS` are modelled as an
  explicit environment record `Env` passed to every operation that
  consumes them: each field holds the value the ambient call returns
  during that single operation.
* React `setState` updater calls become pure functions
  `AppState -> AppState`; the interpreter's `actions` callbacks become
  direct calls of those functions, and `processCommand` returns the
  resulting state next to its `CommandResult`.
* The JavaScript string methods used by the source (`trim`,
  `split(/\s+/)`, `split("|")`, `toLowerCase`, `join`) are embedded as
  structurally recursive functions over the character list of a
  `String`, so that every definition evaluates inside the kernel.
-/

/-- Feature record, `interface Feature` of AppContext.tsx (lines 4-11). -/
structure Feature where
  id : String
  name : String
  description : String
  enabled : Bool
  category : String
  addedAt : String
deriving DecidableEq, Repr

/-- GPS log entry, `interface GPSLog` (lines 13-19); `lat`, `lng`,
`accuracy` are JavaScript numbers, i.e. IEEE doubles. -/
structure GPSLog where
  id : String
  lat : Float
  lng : Float
  accuracy : Float
  timestamp : String
deriving Repr

/-- Photo log entry, `interface PhotoLog` (lines 21-25). -/
structure PhotoLog where
  id : String
  uri : String
  timestamp : String
deriving DecidableEq, Repr

/-- Tag of a command log entry, the union type `"success" | "error" | "info"`. -/
inductive LogType where
  | success
  | error
  | info
deriving DecidableEq, Repr

/-- Command log entry, `interface CommandLog` (lines 27-33). -/
structure CommandLog where
  id : String
  command : String
  result : String
  timestamp : String
  type : LogType
deriving DecidableEq, Repr

/-- Outgoing email item, `interface EmailQueue` (lines 35-41). -/
structure EmailQueue where
  id : String
  subject : String
  body : String
  createdAt : String
  sent : Bool
deriving DecidableEq, Repr

/-- The entity store: the `useState` collections held by `AppProvider`
(lines 79-84).  `isOnline` is a constant never mutated by any store
operation or command and is omitted. -/
structure AppState where
  features : List Feature
  gpsLogs : List GPSLog
  photoLogs : List PhotoLog
  commandLogs : List CommandLog
  emailQueue : List EmailQueue
  emailAddress : String
deriving Repr

/-- Values produced by the ambient generators during one operation:
`uidv` is what `uid()` returns, `nowIso` is `new Date().toISOString()`,
`nowLocale` is `new Date().toLocaleString()`, `platform` is
`Platform.OS`. -/
structure Env where
  uidv : String
  nowIso : String
  nowLocale : String
  platform : String
deriving DecidableEq, Repr

/-- Default seeded features, `DEFAULT_FEATURES` (AppContext.tsx lines
43-54); `t` stands for the `new Date().toISOString()` value taken at
module initialisation. -/
def DEFAULT_FEATURES (t : String) : List Feature :=
  [ { id := "f001", name := "GPS Tracking", description := "Real-time location logging", enabled := true, category := "Sensors", addedAt := t },
    { id := "f002", name := "Camera Capture", description := "Offline photo capture", enabled := true, category := "Sensors", addedAt := t },
    { id := "f003", name := "Email Sync", description := "Sync data when online", enabled := true, category := "Network", addedAt := t },
    { id := "f004", name := "Dark Mode", description := "Always-on dark interface", enabled := true, category := "UI", addedAt := t },
    { id := "f005", name := "Haptic Feedback", description := "Tactile button responses", enabled := true, category := "UI", addedAt := t },
    { id := "f006", name := "Auto GPS Log", description := "Log GPS every 30 seconds", enabled := false, category := "Sensors", addedAt := t },
    { id := "f007", name := "Battery Monitor", description := "Track battery usage", enabled := false, category := "System", addedAt := t },
    { id := "f008", name := "Network Watch", description := "Monitor connectivity state", enabled := true, category := "Network", addedAt := t },
    { id := "f009", name := "Command History", description := "Save all command logs", enabled := true, category := "System", addedAt := t },
    { id := "f010", name := "Photo Compression", description := "Compress photos on save", enabled := false, category := "Sensors", addedAt := t } ]

/-- Initial store state of a fresh `AppProvider` before any mutation
(lines 79-84): seeded features, all other collections empty. -/
def initState (t : String) : AppState :=
  { features := DEFAULT_FEATURES t
    gpsLogs := []
    photoLogs := []
    commandLogs := []
    emailQueue := []
    emailAddress := "" }

/-- Store operation `toggleFeature` (AppContext.tsx lines 144-146):
`prev.map(f => f.id === id ? { ...f, enabled: !f.enabled } : f)`. -/
def toggleFeature (s : AppState) (id : String) : AppState :=
  { s with features := s.features.map (fun f => if f.id = id then { f with enabled := !f.enabled } else f) }

/-- Store operation `addFeature` (AppContext.tsx lines 148-158): builds
the new feature from the arguments, `uid()` and the current ISO time,
with `enabled: false`, and appends it with `[...prev, newFeature]`. -/
def addFeature (s : AppState) (name description category : String) (env : Env) : AppState :=
  { s with features := s.features ++
      [ { id := env.uidv, name := name, description := description, enabled := false, category := category, addedAt := env.nowIso } ] }

/-- Store operation `removeFeature` (AppContext.tsx lines 160-162):
`prev.filter(f => f.id !== id)`. -/
def removeFeature (s : AppState) (id : String) : AppState :=
  { s with features := s.features.filter (fun f => f.id != id) }

/-- Store operation `addGPSLog` (AppContext.tsx lines 164-167):
`[entry, ...prev].slice(0, 200)`. -/
def addGPSLog (s : AppState) (lat lng accuracy : Float) (env : Env) : AppState :=
  { s with gpsLogs := ({ id := env.uidv, lat := lat, lng := lng, accuracy := accuracy, timestamp := env.nowIso } :: s.gpsLogs).take 200 }

/-- Store operation `addPhotoLog` (AppContext.tsx lines 169-172):
`[entry, ...prev].slice(0, 100)`. -/
def addPhotoLog (s : AppState) (uri : String) (env : Env) : AppState :=
  { s with photoLogs := ({ id := env.uidv, uri := uri, timestamp := env.nowIso } :: s.photoLogs).take 100 }

/-- Store operation `addCommandLog` (AppContext.tsx lines 174-177):
`[entry, ...prev].slice(0, 500)`. -/
def addCommandLog (s : AppState) (command result : String) (type : LogType) (env : Env) : AppState :=
  { s with commandLogs := ({ id := env.uidv, command := command, result := result, timestamp := env.nowIso, type := type } :: s.commandLogs).take 500 }

/-- Store operation `addEmailQueue` (AppContext.tsx lines 179-182):
appends `{ id: uid(), subject, body, createdAt, sent: false }` with
`[...prev, entry]`. -/
def addEmailQueue (s : AppState) (subject body : String) (env : Env) : AppState :=
  { s with emailQueue := s.emailQueue ++
      [ { id := env.uidv, subject := subject, body := body, createdAt := env.nowIso, sent := false } ] }

/-- Store operation `clearCommandLogs` (AppContext.tsx line 184). -/
def clearCommandLogs (s : AppState) : AppState :=
  { s with commandLogs := [] }

/-- Store operation `clearGPSLogs` (AppContext.tsx line 185). -/
def clearGPSLogs (s : AppState) : AppState :=
  { s with gpsLogs := [] }

/-- Store operation `setEmailAddress` (AppContext.tsx lines 139-142),
persistence side effect aside. -/
def setEmailAddress (s : AppState) (email : String) : AppState :=
  { s with emailAddress := email }

/-- Drops the leading whitespace characters of a character list; one of
the two halves of JavaScript `String.prototype.trim`. -/
def dropLeadingWs : List Char → List Char
  | [] => []
  | c :: cs => if c.isWhitespace then dropLeadingWs cs else c :: cs

/-- JavaScript `s.trim()`: removes leading and trailing whitespace. -/
def strTrim (s : String) : String :=
  ⟨((dropLeadingWs s.data).reverse |> dropLeadingWs).reverse⟩

/-- Splits a character list at every character satisfying `p`, keeping
empty segments, exactly like JavaScript `s.split(sep)` for a
one-character separator (and like `s.split(/\s+/)` once empty segments
are filtered from a trimmed string).  `acc` holds the reversed
characters of the segment being read. -/
def splitByAux (p : Char → Bool) : List Char → List Char → List String
  | [], acc => [⟨acc.reverse⟩]
  | c :: cs, acc => if p c then ⟨acc.reverse⟩ :: splitByAux p cs [] else splitByAux p cs (c :: acc)

/-- Splits a string at every character satisfying `p`, keeping empty
segments. -/
def splitBy (p : Char → Bool) (s : String) : List String :=
  splitByAux p s.data []

/-- JavaScript `s.toLowerCase()` on the ASCII range. -/
def strToLower (s : String) : String :=
  ⟨s.data.map Char.toLower⟩

/-- Tokenisation of command.tsx line 38: `input.trim().split(/\s+/)`.
On a fully-whitespace input the JavaScript expression yields `[""]`;
on any other input it yields the whitespace-delimited words of the
trimmed input, which equals splitting at every whitespace character and
discarding empty segments. -/
def tokenize (input : String) : List String :=
  if strTrim input = "" then [""]
  else (splitBy Char.isWhitespace (strTrim input)).filter (fun w => w != "")

/-- JavaScript `args.join(" ")`. -/
def joinSpace (args : List String) : String :=
  String.intercalate " " args

/-- Result record of the interpreter, `type CommandResult` of
command.tsx (lines 19-23); the optional `data` payload is never set by
any branch of `processCommand` and is omitted. -/
structure CommandResult where
  success : Bool
  message : String
deriving DecidableEq, Repr

/-- Feature lookup of the `enable` / `disable` branches (command.tsx
lines 59 and 69): `features.find(x => x.id === args[0] ||
x.name.toLowerCase() === args.join(" ").toLowerCase())`. -/
def featureLookup (features : List Feature) (args : List String) : Option Feature :=
  features.find? (fun x => x.id == args.headD "" || strToLower x.name == strToLower (joinSpace args))

/-- One line of the `list` output (command.tsx line 52). -/
def featureLine (f : Feature) : String :=
  "  [" ++ (if f.enabled then "ON " else "OFF") ++ "] " ++ f.id ++ " — " ++ f.name ++ " (" ++ f.category ++ ")"

/-- Segments of the `add` branch (command.tsx lines 77-78):
`args.join(" ").split("|").map(s => s.trim())`. -/
def addSegments (args : List String) : List String :=
  (splitBy (fun c => c == '|') (joinSpace args)).map strTrim

/-- Static `help` output (command.tsx lines 44-47). -/
def helpText : String :=
  "Available commands:\n  help — show this list\n  list — list all features\n  enable <id> — enable feature\n  disable <id> — disable feature\n  add <name> | <desc> | <category> — add feature\n  remove <id> — remove feature\n  status — system status\n  clear-logs — clear command logs\n  clear-gps — clear GPS logs\n  sync-email — queue data for email sync\n  version — app version"

/-- Body of the summary email enqueued by `sync-email` (command.tsx
line 115). -/
def syncBody (s : AppState) (env : Env) : String :=
  "Sync request at " ++ env.nowLocale ++ "\nFeatures: " ++
    String.intercalate ", " ((s.features.filter (fun f => f.enabled)).map (fun f => f.name))

/-- The `switch (cmd)` body of `processCommand` (command.tsx lines
42-128), for an already-lowercased verb `cmd` and argument list `args`.
Each `actions.*` callback becomes the corresponding store function, so
the mutated store is returned next to the `CommandResult`; branches
that invoke no action return the state unchanged. -/
def processCmd (cmd : String) (args : List String) (s : AppState) (env : Env) : CommandResult × AppState :=
  if cmd = "help" then
    ({ success := true, message := helpText }, s)
  else if cmd = "list" then
    if s.features.length = 0 then
      ({ success := true, message := "No features registered." }, s)
    else
      ({ success := true, message := "Features (" ++ toString s.features.length ++ "):\n" ++
          String.intercalate "\n" (s.features.map featureLine) }, s)
  else if cmd = "enable" then
    if args.headD "" = "" then ({ success := false, message := "Usage: enable <feature-id>" }, s)
    else
      match featureLookup s.features args with
      | none => ({ success := false, message := "Feature not found: " ++ args.headD "" }, s)
      | some f =>
        if f.enabled then ({ success := true, message := f.name ++ " is already enabled." }, s)
        else ({ success := true, message := "Enabled: " ++ f.name }, toggleFeature s f.id)
  else if cmd = "disable" then
    if args.headD "" = "" then ({ success := false, message := "Usage: disable <feature-id>" }, s)
    else
      match featureLookup s.features args with
      | none => ({ success := false, message := "Feature not found: " ++ args.headD "" }, s)
      | some f =>
        if !f.enabled then ({ success := true, message := f.name ++ " is already disabled." }, s)
        else ({ success := true, message := "Disabled: " ++ f.name }, toggleFeature s f.id)
  else if cmd = "add" then
    if (addSegments args).length < 2 then
      ({ success := false, message := "Usage: add <name> | <description> | <category>" }, s)
    else if (addSegments args).getD 0 "" = "" ∨ (addSegments args).getD 1 "" = "" then
      ({ success := false, message := "Name and description are required." }, s)
    else
      ({ success := true, message := "Feature added: " ++ (addSegments args).getD 0 "" ++ " [" ++ (addSegments args).getD 2 "Custom" ++ "]" },
        addFeature s ((addSegments args).getD 0 "") ((addSegments args).getD 1 "") ((addSegments args).getD 2 "Custom") env)
  else if cmd = "remove" then
    if args.headD "" = "" then ({ success := false, message := "Usage: remove <feature-id>" }, s)
    else
      match s.features.find? (fun x => x.id == args.headD "") with
      | none => ({ success := false, message := "Feature not found: " ++ args.headD "" }, s)
      | some f => ({ success := true, message := "Removed: " ++ f.name }, removeFeature s f.id)
  else if cmd = "status" then
    ({ success := true, message := "System Status:\n  Features: " ++
        toString (s.features.filter (fun f => f.enabled)).length ++ "/" ++ toString s.features.length ++
        " active\n  Email: " ++ (if s.emailAddress = "" then "not configured" else s.emailAddress) ++
        "\n  Platform: " ++ env.platform ++ "\n  Version: 1.0.0" }, s)
  else if cmd = "clear-logs" then
    ({ success := true, message := "Command logs cleared." }, clearCommandLogs s)
  else if cmd = "clear-gps" then
    ({ success := true, message := "GPS logs cleared." }, clearGPSLogs s)
  else if cmd = "sync-email" then
    if s.emailAddress = "" then
      ({ success := false, message := "No email configured. Set it in Settings first." }, s)
    else
      ({ success := true, message := "Email queued for: " ++ s.emailAddress },
        addEmailQueue s "Rubel Engine Data Sync" (syncBody s env) env)
  else if cmd = "version" then
    ({ success := true, message := "Rubel Engine v1.0.0\nBuilt with Expo React Native\n100% offline-capable" }, s)
  else if cmd = "" then
    ({ success := false, message := "No command entered. Type \x27help\x27 for options." }, s)
  else
    ({ success := false, message := "Unknown command: \x27" ++ cmd ++ "\x27. Type \x27help\x27 for available commands." }, s)

/-- The command interpreter `processCommand` (command.tsx lines 25-129):
tokenises the input (line 38), lowercases the first token as the verb
(line 39), takes the remaining tokens as arguments (line 40) and
dispatches on the verb. -/
def processCommand (input : String) (s : AppState) (env : Env) : CommandResult × AppState :=
  processCmd (strToLower ((tokenize input).headD "")) ((tokenize input).tail) s env

/-- Empty store: no features, no logs, no queue, no configured email. -/
def emptyState : AppState :=
  { features := [], gpsLogs := [], photoLogs := [], commandLogs := [], emailQueue := [], emailAddress := "" }

/-- Concrete environment used by concrete evaluations. -/
def envA : Env :=
  { uidv := "u1", nowIso := "t1", nowLocale := "lt1", platform := "web" }

/-- Demo feature in the disabled state. -/
def demoA : Feature :=
  { id := "d1", name := "Alpha", description := "first", enabled := false, category := "X", addedAt := "t" }

/-- Demo feature in the enabled state. -/
def demoB : Feature :=
  { id := "d2", name := "Beta", description := "second", enabled := true, category := "X", addedAt := "t" }

/-- Two-feature demo store. -/
def demoState : AppState :=
  { features := [demoA, demoB], gpsLogs := [], photoLogs := [], commandLogs := [], emailQueue := [], emailAddress := "" }

/-- Arguments of one `addFeature` call together with the ambient
generator values consumed during that call. -/
structure AddCall where
  name : String
  description : String
  category : String
  env : Env
deriving DecidableEq, Repr

/-- Runs a sequence of `addFeature` calls against a store state, in
order. -/
def runAddCalls (s : AppState) : List AddCall → AppState
  | [] => s
  | c :: cs => runAddCalls (addFeature s c.name c.description c.category c.env) cs

/-- Concrete GPS log entry. -/
def gpsA : GPSLog :=
  { id := "g0", lat := 0.0, lng := 0.0, accuracy := 1.0, timestamp := "t0" }

/-- Concrete photo log entry. -/
def photoA : PhotoLog :=
  { id := "p0", uri := "file0", timestamp := "t0" }

/-- Concrete command log entry. -/
def cmdLogA : CommandLog :=
  { id := "c0", command := "help", result := "ok", timestamp := "t0", type := LogType.info }

/-- Store whose three capped log collections all sit exactly at their
caps (200 GPS entries, 100 photo entries, 500 command entries). -/
def capState : AppState :=
  { features := [], gpsLogs := List.replicate 200 gpsA, photoLogs := List.replicate 100 photoA,
    commandLogs := List.replicate 500 cmdLogA, emailQueue := [], emailAddress := "" }

/-- Demo store with a configured email address and one enabled feature. -/
def emailState : AppState :=
  { features := [demoB], gpsLogs := [], photoLogs := [], commandLogs := [], emailQueue := [],
    emailAddress := "a@b.com" }

/-- Behaviour of `(e :: l).take n` for `0 < n`, the shared shape of the
three capped log appends: the result is bounded by the cap, starts with
the new entry, and at exactly the cap it drops exactly the last (i.e.
oldest, the lists being newest-first) element. -/
theorem take_cons_cap {α : Type _} (e : α) (l : List α) (n : Nat) (hn : 0 < n) :
    ((e :: l).take n).length ≤ n ∧
    ((e :: l).take n).head? = some e ∧
    (l.length = n → (e :: l).take n = e :: l.dropLast ∧ ((e :: l).take n).length = n) := by
  cases n with
  | zero => exact absurd hn (by simp)
  | succ m =>
    refine ⟨?_, ?_, ?_⟩
    · rw [List.length_take]; exact Nat.min_le_left _ _
    · rw [List.take_succ_cons]; rfl
    · intro hl
      refine ⟨?_, ?_⟩
      · rw [List.take_succ_cons, List.dropLast_eq_take, hl, Nat.add_sub_cancel]
      · rw [List.length_take, List.length_cons]; omega

example : tokenize "  add  foo | bar  " = ["add", "foo", "|", "bar"] := by decide
example : tokenize "   " = [""] := by decide
example : addSegments ["foo", "|", "bar", "|", "baz"] = ["foo", "bar", "baz"] := by decide
example : addSegments ["foo|bar|"] = ["foo", "bar", ""] := by decide
example : (processCommand "help" (initState "t") ⟨"u", "t", "lt", "web"⟩).1.success = true := by decide
example : (processCommand "enable f006" (initState "t") ⟨"u", "t", "lt", "web"⟩).1.message = "Enabled: Auto GPS Log" := by decide
example : (processCommand "enable f001" (initState "t") ⟨"u", "t", "lt", "web"⟩).1.message = "GPS Tracking is already enabled." := by decide
example : (processCommand "enable dark mode" (initState "t") ⟨"u", "t", "lt", "web"⟩).1.message = "Dark Mode is already enabled." := by decide
example : (processCommand "bogus" (initState "t") ⟨"u", "t", "lt", "web"⟩).1.success = false := by decide
example : (processCommand "add foo|bar|" (initState "t") ⟨"u", "t", "lt", "web"⟩).2.features.map Feature.category = ["Sensors", "Sensors", "Network", "UI", "UI", "Sensors", "System", "Network", "System", "Sensors", ""] := by decide

/-- C10: `clearGPSLogs` empties exactly the GPS log collection and
leaves every other component of the store unchanged; symmetrically,
`clearCommandLogs` empties exactly the command log collection. -/
theorem c10_clear_frame (s : AppState) :
    (clearGPSLogs s).gpsLogs = [] ∧
    (clearGPSLogs s).features = s.features ∧
    (clearGPSLogs s).photoLogs = s.photoLogs ∧
    (clearGPSLogs s).commandLogs = s.commandLogs ∧
    (clearGPSLogs s).emailQueue = s.emailQueue ∧
    (clearGPSLogs s).emailAddress = s.emailAddress ∧
    (clearCommandLogs s).commandLogs = [] ∧
    (clearCommandLogs s).features = s.features ∧
    (clearCommandLogs s).gpsLogs = s.gpsLogs ∧
    (clearCommandLogs s).photoLogs = s.photoLogs ∧
    (clearCommandLogs s).emailQueue = s.emailQueue ∧
    (clearCommandLogs s).emailAddress = s.emailAddress :=
  ⟨rfl, rfl, rfl, rfl, rfl, rfl, rfl, rfl, rfl, rfl, rfl, rfl⟩

/-- C6: after each capped append (`addGPSLog` cap 200, `addPhotoLog`
cap 100, `addCommandLog` cap 500) the collection's length is at most
the cap, the new entry sits at the front (newest-first), and when the
collection was already exactly at its cap exactly the oldest (last)
entry is dropped, leaving exactly cap entries. -/
theorem c6_log_caps (s : AppState) (lat lng accuracy : Float) (uri command result : String) (type : LogType) (env : Env) :
    ((addGPSLog s lat lng accuracy env).gpsLogs.length ≤ 200 ∧
     (addGPSLog s lat lng accuracy env).gpsLogs.head? =
       some { id := env.uidv, lat := lat, lng := lng, accuracy := accuracy, timestamp := env.nowIso } ∧
     (s.gpsLogs.length = 200 →
       (addGPSLog s lat lng accuracy env).gpsLogs =
         { id := env.uidv, lat := lat, lng := lng, accuracy := accuracy, timestamp := env.nowIso } :: s.gpsLogs.dropLast ∧
       (addGPSLog s lat lng accuracy env).gpsLogs.length = 200)) ∧
    ((addPhotoLog s uri env).photoLogs.length ≤ 100 ∧
     (addPhotoLog s uri env).photoLogs.head? = some { id := env.uidv, uri := uri, timestamp := env.nowIso } ∧
     (s.photoLogs.length = 100 →
       (addPhotoLog s uri env).photoLogs =
         { id := env.uidv, uri := uri, timestamp := env.nowIso } :: s.photoLogs.dropLast ∧
       (addPhotoLog s uri env).photoLogs.length = 100)) ∧
    ((addCommandLog s command result type env).commandLogs.length ≤ 500 ∧
     (addCommandLog s command result type env).commandLogs.head? =
       some { id := env.uidv, command := command, result := result, timestamp := env.nowIso, type := type } ∧
     (s.commandLogs.length = 500 →
       (addCommandLog s command result type env).commandLogs =
         { id := env.uidv, command := command, result := result, timestamp := env.nowIso, type := type } :: s.commandLogs.dropLast ∧
       (addCommandLog s command result type env).commandLogs.length = 500)) :=
  ⟨take_cons_cap _ s.gpsLogs 200 (by omega),
   take_cons_cap _ s.photoLogs 100 (by omega),
   take_cons_cap _ s.commandLogs 500 (by omega)⟩

/-- C6 witness: at a store whose logs sit exactly at their caps, each
append leaves exactly cap entries with the new entry at the front. -/
theorem c6_log_caps_witness :
    (addGPSLog capState 1.0 2.0 3.0 envA).gpsLogs.length = 200 ∧
    (addGPSLog capState 1.0 2.0 3.0 envA).gpsLogs.head? =
      some { id := "u1", lat := 1.0, lng := 2.0, accuracy := 3.0, timestamp := "t1" } ∧
    (addPhotoLog capState "file9" envA).photoLogs.length = 100 ∧
    (addCommandLog capState "help" "ok" LogType.info envA).commandLogs.length = 500 := by
  have h := c6_log_caps capState 1.0 2.0 3.0 "file9" "help" "ok" LogType.info envA
  refine ⟨(h.1.2.2 ?_).2, h.1.2.1, (h.2.1.2.2 ?_).2, (h.2.2.2.2 ?_).2⟩ <;>
    exact List.length_replicate _ _

/-- C1 counterexample: the store operation `addFeature` performs no
emptiness validation: called with a name and a description that are
both empty after trimming it still appends a feature (here to the empty
store), where the claim says it fails and adds none. -/
theorem c1_counterexample :
    strTrim " " = "" ∧
    (addFeature emptyState " " " " "Custom" envA).features =
      [{ id := "u1", name := " ", description := " ", enabled := false, category := "Custom", addedAt := "t1" }] :=
  ⟨rfl, rfl⟩

/-- C1 amended: `addFeature(name, description, category)` never fails
and performs no validation: every call, with empty-after-trimming
arguments or not, appends exactly one feature carrying the supplied
fields, the generator-supplied id and `enabled = false` to the end of
the feature list, leaving the rest of the store unchanged (the
emptiness validation is performed by the callers — the `add` command
and the admin form — before invoking it). -/
theorem c1_addFeature_appends (s : AppState) (name description category : String) (env : Env) :
    (addFeature s name description category env).features =
      s.features ++
        [{ id := env.uidv, name := name, description := description, enabled := false, category := category, addedAt := env.nowIso }] ∧
    (addFeature s name description category env).features.length = s.features.length + 1 ∧
    (addFeature s name description category env).gpsLogs = s.gpsLogs ∧
    (addFeature s name description category env).photoLogs = s.photoLogs ∧
    (addFeature s name description category env).commandLogs = s.commandLogs ∧
    (addFeature s name description category env).emailQueue = s.emailQueue ∧
    (addFeature s name description category env).emailAddress = s.emailAddress :=
  ⟨rfl, by simp [addFeature], rfl, rfl, rfl, rfl, rfl⟩

/-- C9: `removeFeature` is idempotent; on an absent id it is a no-op
success (the state, not just the list, is unchanged, and the operation
is total so no error is raised); on a present id it deletes exactly
that feature; every other component of the store is untouched. -/
theorem c9_removeFeature_idempotent (s : AppState) (id : String) :
    removeFeature (removeFeature s id) id = removeFeature s id ∧
    ((∀ f ∈ s.features, f.id ≠ id) → removeFeature s id = s) ∧
    (∀ l1 f l2, s.features = l1 ++ f :: l2 → f.id = id →
      (∀ g ∈ l1, g.id ≠ id) → (∀ g ∈ l2, g.id ≠ id) →
      (removeFeature s id).features = l1 ++ l2) ∧
    (removeFeature s id).gpsLogs = s.gpsLogs ∧
    (removeFeature s id).photoLogs = s.photoLogs ∧
    (removeFeature s id).commandLogs = s.commandLogs ∧
    (removeFeature s id).emailQueue = s.emailQueue ∧
    (removeFeature s id).emailAddress = s.emailAddress := by
  refine ⟨?_, ?_, ?_, rfl, rfl, rfl, rfl, rfl⟩
  · unfold removeFeature
    simp [List.filter_filter]
  · intro h
    have hfe : s.features.filter (fun g => g.id != id) = s.features :=
      List.filter_eq_self.mpr (fun f hf => by simpa using h f hf)
    unfold removeFeature
    rw [hfe]
  · intro l1 f l2 hs hf hl1 hl2
    show s.features.filter (fun g => g.id != id) = l1 ++ l2
    rw [hs, List.filter_append, List.filter_cons,
      List.filter_eq_self.mpr (fun g hg => by simpa using hl1 g hg),
      List.filter_eq_self.mpr (fun g hg => by simpa using hl2 g hg)]
    simp [hf]

/-- C9 witness: removing an absent id from the demo store changes
nothing; removing `d2` deletes exactly that feature, and removing it
twice equals removing it once. -/
theorem c9_witness :
    removeFeature demoState "zz" = demoState ∧
    (removeFeature demoState "d2").features = [demoA] ∧
    removeFeature (removeFeature demoState "d2") "d2" = removeFeature demoState "d2" := by
  have h1 := c9_removeFeature_idempotent demoState "zz"
  have h2 := c9_removeFeature_idempotent demoState "d2"
  refine ⟨h1.2.1 (by decide), ?_, h2.1⟩
  have hdel := h2.2.2.1 [demoA] demoB [] rfl rfl (by decide) (by decide)
  exact hdel.trans (by decide)

/-- Mapping the toggle update over a list in which no feature carries
the toggled id changes nothing. -/
theorem map_toggle_id_eq_self (l : List Feature) (id : String) (h : ∀ g ∈ l, g.id ≠ id) :
    l.map (fun g => if g.id = id then { g with enabled := !g.enabled } else g) = l := by
  induction l with
  | nil => rfl
  | cons a t ih =>
    rw [List.map_cons, if_neg (h a (by simp)), ih (fun g hg => h g (by simp [hg]))]

/-- C3 counterexample: `toggleFeature` called with an id absent from
the feature list (here `zzz` against the seeded default store) does not
fail with a `NotFoundError`: it is a total operation that returns the
store unchanged. -/
theorem c3_counterexample :
    (∀ f ∈ (initState "t0").features, f.id ≠ "zzz") ∧
    toggleFeature (initState "t0") "zzz" = initState "t0" :=
  ⟨by decide, rfl⟩

/-- C3 amended: `toggleFeature(id)` never fails: when the id is absent
from the feature list it is a silent no-op returning the store
unchanged (the not-found failure the spec describes is produced by the
command interpreter's `enable`/`disable` lookup, not by the store
operation); when the id is present (and carried by exactly one
feature) it flips that feature's `enabled` flag and changes nothing
else. -/
theorem c3_toggle_noop_or_flip (s : AppState) (id : String) :
    ((∀ f ∈ s.features, f.id ≠ id) → toggleFeature s id = s) ∧
    (∀ l1 f l2, s.features = l1 ++ f :: l2 → f.id = id →
      (∀ g ∈ l1, g.id ≠ id) → (∀ g ∈ l2, g.id ≠ id) →
      (toggleFeature s id).features = l1 ++ { f with enabled := !f.enabled } :: l2) ∧
    (toggleFeature s id).gpsLogs = s.gpsLogs ∧
    (toggleFeature s id).photoLogs = s.photoLogs ∧
    (toggleFeature s id).commandLogs = s.commandLogs ∧
    (toggleFeature s id).emailQueue = s.emailQueue ∧
    (toggleFeature s id).emailAddress = s.emailAddress := by
  refine ⟨?_, ?_, rfl, rfl, rfl, rfl, rfl⟩
  · intro h
    unfold toggleFeature
    rw [map_toggle_id_eq_self s.features id h]
  · intro l1 f l2 hs hf hl1 hl2
    show s.features.map (fun g => if g.id = id then { g with enabled := !g.enabled } else g) =
      l1 ++ { f with enabled := !f.enabled } :: l2
    rw [hs, List.map_append, List.map_cons, if_pos hf,
      map_toggle_id_eq_self l1 id hl1, map_toggle_id_eq_self l2 id hl2]

/-- C3 witness: toggling an absent id on the demo store is a no-op;
toggling `d1` flips exactly that feature. -/
theorem c3_witness :
    toggleFeature demoState "absent" = demoState ∧
    (toggleFeature demoState "d1").features = [{ demoA with enabled := true }, demoB] := by
  constructor
  · exact (c3_toggle_noop_or_flip demoState "absent").1 (by decide)
  · have hflip := (c3_toggle_noop_or_flip demoState "d1").2.1 [] demoA [demoB] rfl rfl
      (by decide) (by decide)
    exact hflip.trans (by decide)

/-- C8 counterexample: `uid()` is
`Math.random().toString(36).slice(2) + Date.now().toString(36)`, an
ambient generator whose value is modelled as the environment field
`uidv`; nothing in `addFeature` prevents two calls from receiving the
same generated string (same random draw within the same millisecond),
and when that happens both features carry the same id. -/
theorem c8_counterexample :
    ¬ ((runAddCalls emptyState
        [{ name := "a", description := "b", category := "c",
           env := { uidv := "dup", nowIso := "t", nowLocale := "lt", platform := "web" } },
         { name := "d", description := "e", category := "f",
           env := { uidv := "dup", nowIso := "t", nowLocale := "lt", platform := "web" } }]).features.map Feature.id).Nodup := by
  decide

/-- C8 amended: for every sequence of `addFeature` calls, the assigned
ids are exactly the `uid()` values drawn by the calls, appended in call
order after the pre-existing ids; hence they are pairwise distinct (and
distinct from all pre-existing ids) whenever those drawn values are —
which the random-plus-timestamp generator makes overwhelmingly likely
but does not guarantee. -/
theorem c8_ids_nodup (s : AppState) (calls : List AddCall)
    (h : (s.features.map Feature.id ++ calls.map (fun c => c.env.uidv)).Nodup) :
    (runAddCalls s calls).features.map Feature.id =
      s.features.map Feature.id ++ calls.map (fun c => c.env.uidv) ∧
    ((runAddCalls s calls).features.map Feature.id).Nodup := by
  have key : ∀ (cs : List AddCall) (st : AppState),
      (runAddCalls st cs).features.map Feature.id =
        st.features.map Feature.id ++ cs.map (fun c => c.env.uidv) := by
    intro cs
    induction cs with
    | nil => intro st; simp [runAddCalls]
    | cons c cs ih =>
      intro st
      rw [runAddCalls, ih]
      simp [addFeature]
  refine ⟨key calls s, ?_⟩
  rw [key calls s]
  exact h

/-- C8 witness: two `addFeature` calls with distinct generated ids
yield pairwise distinct feature ids. -/
theorem c8_witness :
    ((runAddCalls emptyState
        [{ name := "a", description := "b", category := "c",
           env := { uidv := "u8a", nowIso := "t", nowLocale := "lt", platform := "web" } },
         { name := "d", description := "e", category := "f",
           env := { uidv := "u8b", nowIso := "t", nowLocale := "lt", platform := "web" } }]).features.map Feature.id).Nodup :=
  (c8_ids_nodup emptyState _ (by decide)).2

/-- Evaluation of the switch at the verb `help`. -/
theorem processCmd_help_eq (args : List String) (s : AppState) (env : Env) :
    processCmd "help" args s env = ({ success := true, message := helpText }, s) := rfl

/-- Evaluation of the switch at the verb `list`. -/
theorem processCmd_list_eq (args : List String) (s : AppState) (env : Env) :
    processCmd "list" args s env =
      if s.features.length = 0 then ({ success := true, message := "No features registered." }, s)
      else ({ success := true, message := "Features (" ++ toString s.features.length ++ "):\n" ++
          String.intercalate "\n" (s.features.map featureLine) }, s) := rfl

/-- Evaluation of the switch at the verb `enable`. -/
theorem processCmd_enable_eq (args : List String) (s : AppState) (env : Env) :
    processCmd "enable" args s env =
      (if args.headD "" = "" then ({ success := false, message := "Usage: enable <feature-id>" }, s)
       else
        match featureLookup s.features args with
        | none => ({ success := false, message := "Feature not found: " ++ args.headD "" }, s)
        | some f =>
          if f.enabled then ({ success := true, message := f.name ++ " is already enabled." }, s)
          else ({ success := true, message := "Enabled: " ++ f.name }, toggleFeature s f.id)) := rfl

/-- Evaluation of the switch at the verb `disable`. -/
theorem processCmd_disable_eq (args : List String) (s : AppState) (env : Env) :
    processCmd "disable" args s env =
      (if args.headD "" = "" then ({ success := false, message := "Usage: disable <feature-id>" }, s)
       else
        match featureLookup s.features args with
        | none => ({ success := false, message := "Feature not found: " ++ args.headD "" }, s)
        | some f =>
          if !f.enabled then ({ success := true, message := f.name ++ " is already disabled." }, s)
          else ({ success := true, message := "Disabled: " ++ f.name }, toggleFeature s f.id)) := rfl

/-- Evaluation of the switch at the verb `add`. -/
theorem processCmd_add_eq (args : List String) (s : AppState) (env : Env) :
    processCmd "add" args s env =
      (if (addSegments args).length < 2 then
        ({ success := false, message := "Usage: add <name> | <description> | <category>" }, s)
       else if (addSegments args).getD 0 "" = "" ∨ (addSegments args).getD 1 "" = "" then
        ({ success := false, message := "Name and description are required." }, s)
       else
        ({ success := true, message := "Feature added: " ++ (addSegments args).getD 0 "" ++ " [" ++ (addSegments args).getD 2 "Custom" ++ "]" },
          addFeature s ((addSegments args).getD 0 "") ((addSegments args).getD 1 "") ((addSegments args).getD 2 "Custom") env)) := rfl

/-- Evaluation of the switch at the verb `remove`. -/
theorem processCmd_remove_eq (args : List String) (s : AppState) (env : Env) :
    processCmd "remove" args s env =
      (if args.headD "" = "" then ({ success := false, message := "Usage: remove <feature-id>" }, s)
       else
        match s.features.find? (fun x => x.id == args.headD "") with
        | none => ({ success := false, message := "Feature not found: " ++ args.headD "" }, s)
        | some f => ({ success := true, message := "Removed: " ++ f.name }, removeFeature s f.id)) := rfl

/-- Evaluation of the switch at the verb `status`. -/
theorem processCmd_status_eq (args : List String) (s : AppState) (env : Env) :
    processCmd "status" args s env =
      ({ success := true, message := "System Status:\n  Features: " ++
          toString (s.features.filter (fun f => f.enabled)).length ++ "/" ++ toString s.features.length ++
          " active\n  Email: " ++ (if s.emailAddress = "" then "not configured" else s.emailAddress) ++
          "\n  Platform: " ++ env.platform ++ "\n  Version: 1.0.0" }, s) := rfl

/-- Evaluation of the switch at the verb `clear-logs`. -/
theorem processCmd_clear_logs_eq (args : List String) (s : AppState) (env : Env) :
    processCmd "clear-logs" args s env =
      ({ success := true, message := "Command logs cleared." }, clearCommandLogs s) := rfl

/-- Evaluation of the switch at the verb `clear-gps`. -/
theorem processCmd_clear_gps_eq (args : List String) (s : AppState) (env : Env) :
    processCmd "clear-gps" args s env =
      ({ success := true, message := "GPS logs cleared." }, clearGPSLogs s) := rfl

/-- Evaluation of the switch at the verb `sync-email`. -/
theorem processCmd_sync_email_eq (args : List String) (s : AppState) (env : Env) :
    processCmd "sync-email" args s env =
      (if s.emailAddress = "" then
        ({ success := false, message := "No email configured. Set it in Settings first." }, s)
       else
        ({ success := true, message := "Email queued for: " ++ s.emailAddress },
          addEmailQueue s "Rubel Engine Data Sync" (syncBody s env) env)) := rfl

/-- Evaluation of the switch at the verb `version`. -/
theorem processCmd_version_eq (args : List String) (s : AppState) (env : Env) :
    processCmd "version" args s env =
      ({ success := true, message := "Rubel Engine v1.0.0\nBuilt with Expo React Native\n100% offline-capable" }, s) := rfl

/-- Evaluation of the switch at the empty verb (blank input). -/
theorem processCmd_empty_eq (args : List String) (s : AppState) (env : Env) :
    processCmd "" args s env =
      ({ success := false, message := "No command entered. Type \x27help\x27 for options." }, s) := rfl

/-- Evaluation of the switch at an unrecognised verb. -/
theorem processCmd_other_eq (cmd : String) (args : List String) (s : AppState) (env : Env)
    (h1 : cmd ≠ "help") (h2 : cmd ≠ "list") (h3 : cmd ≠ "enable") (h4 : cmd ≠ "disable")
    (h5 : cmd ≠ "add") (h6 : cmd ≠ "remove") (h7 : cmd ≠ "status") (h8 : cmd ≠ "clear-logs")
    (h9 : cmd ≠ "clear-gps") (h10 : cmd ≠ "sync-email") (h11 : cmd ≠ "version") (h12 : cmd ≠ "") :
    processCmd cmd args s env =
      ({ success := false, message := "Unknown command: \x27" ++ cmd ++ "\x27. Type \x27help\x27 for available commands." }, s) := by
  unfold processCmd
  rw [if_neg h1, if_neg h2, if_neg h3, if_neg h4, if_neg h5, if_neg h6, if_neg h7, if_neg h8,
    if_neg h9, if_neg h10, if_neg h11, if_neg h12]

/-- Dispatching an arbitrary verb, whenever the interpreter's result
flags `success = false` the returned store is the input store: every
failing branch of the switch returns before invoking any action. -/
theorem processCmd_fail_frame (cmd : String) (args : List String) (s : AppState) (env : Env) :
    (processCmd cmd args s env).1.success = false → (processCmd cmd args s env).2 = s := by
  by_cases h1 : cmd = "help"
  · subst h1; rw [processCmd_help_eq]; intro h; simp at h
  by_cases h2 : cmd = "list"
  · subst h2; rw [processCmd_list_eq]; split <;> (intro h; simp at h)
  by_cases h3 : cmd = "enable"
  · subst h3
    rw [processCmd_enable_eq]
    repeat' split
    all_goals intro h
    all_goals first | rfl | simp_all
  by_cases h4 : cmd = "disable"
  · subst h4
    rw [processCmd_disable_eq]
    repeat' split
    all_goals intro h
    all_goals first | rfl | simp_all
  by_cases h5 : cmd = "add"
  · subst h5
    rw [processCmd_add_eq]
    repeat' split
    all_goals intro h
    all_goals first | rfl | simp_all
  by_cases h6 : cmd = "remove"
  · subst h6
    rw [processCmd_remove_eq]
    repeat' split
    all_goals intro h
    all_goals first | rfl | simp_all
  by_cases h7 : cmd = "status"
  · subst h7; rw [processCmd_status_eq]; intro h; simp at h
  by_cases h8 : cmd = "clear-logs"
  · subst h8; rw [processCmd_clear_logs_eq]; intro h; simp at h
  by_cases h9 : cmd = "clear-gps"
  · subst h9; rw [processCmd_clear_gps_eq]; intro h; simp at h
  by_cases h10 : cmd = "sync-email"
  · subst h10
    rw [processCmd_sync_email_eq]
    repeat' split
    all_goals intro h
    all_goals first | rfl | simp_all
  by_cases h11 : cmd = "version"
  · subst h11; rw [processCmd_version_eq]; intro h; simp at h
  by_cases h12 : cmd = ""
  · subst h12; rw [processCmd_empty_eq]; intro h; rfl
  rw [processCmd_other_eq cmd args s env h1 h2 h3 h4 h5 h6 h7 h8 h9 h10 h11 h12]
  intro h
  rfl

/-- C4: the interpreter is a total function — every input string, store
state and environment yields a `CommandResult` (no exception escapes) —
and whenever the result has `success = false` (malformed, not-found or
unknown-verb input) no store mutation was invoked, so the returned
store equals the input store. -/
theorem c4_fail_preserves_state (input : String) (s : AppState) (env : Env) :
    (processCommand input s env).1.success = false → (processCommand input s env).2 = s :=
  processCmd_fail_frame _ _ s env

/-- C4 witness: an unknown verb fails and leaves the store unchanged. -/
theorem c4_witness :
    (processCommand "frobnicate now" demoState envA).1.success = false ∧
    (processCommand "frobnicate now" demoState envA).2 = demoState :=
  ⟨by decide, c4_fail_preserves_state "frobnicate now" demoState envA (by decide)⟩

/-- C7: a `sync-email` command fails and enqueues nothing (the whole
store is unchanged) when the configured email address is empty; when it
is non-empty the command succeeds and appends exactly one
`EmailQueueItem` with `sent = false` to the end of the email queue,
leaving every other component unchanged. -/
theorem c7_sync_email (input : String) (s : AppState) (env : Env)
    (hcmd : strToLower ((tokenize input).headD "") = "sync-email") :
    (s.emailAddress = "" →
      (processCommand input s env).1.success = false ∧ (processCommand input s env).2 = s) ∧
    (s.emailAddress ≠ "" →
      (processCommand input s env).1.success = true ∧
      (processCommand input s env).2.emailQueue =
        s.emailQueue ++
          [{ id := env.uidv, subject := "Rubel Engine Data Sync", body := syncBody s env, createdAt := env.nowIso, sent := false }] ∧
      (processCommand input s env).2.features = s.features ∧
      (processCommand input s env).2.gpsLogs = s.gpsLogs ∧
      (processCommand input s env).2.photoLogs = s.photoLogs ∧
      (processCommand input s env).2.commandLogs = s.commandLogs ∧
      (processCommand input s env).2.emailAddress = s.emailAddress) := by
  unfold processCommand
  rw [hcmd, processCmd_sync_email_eq]
  constructor
  · intro he
    rw [if_pos he]
    exact ⟨rfl, rfl⟩
  · intro he
    rw [if_neg he]
    exact ⟨rfl, rfl, rfl, rfl, rfl, rfl, rfl⟩

/-- C7 witness: with no configured address `sync-email` fails and
changes nothing; with `a@b.com` configured it succeeds and appends
exactly one unsent queue item. -/
theorem c7_witness :
    (processCommand "sync-email" emptyState envA).1.success = false ∧
    (processCommand "sync-email" emptyState envA).2 = emptyState ∧
    (processCommand "sync-email" emailState envA).1.success = true ∧
    (processCommand "sync-email" emailState envA).2.emailQueue =
      [{ id := "u1", subject := "Rubel Engine Data Sync", body := "Sync request at lt1\nFeatures: Beta", createdAt := "t1", sent := false }] := by
  have h1 := c7_sync_email "sync-email" emptyState envA (by decide)
  have h2 := c7_sync_email "sync-email" emailState envA (by decide)
  have hf := h1.1 rfl
  have ht := h2.2 (by decide)
  exact ⟨hf.1, hf.2, ht.1, ht.2.1.trans (by decide)⟩

/-- C2 counterexample: `add foo|bar|` splits into segments
`["foo", "bar", ""]`; the claim says an empty third segment defaults
the category to `"Custom"`, but the destructuring default of the code
applies only to an absent segment, so the command succeeds and the
created feature carries the empty-string category. -/
theorem c2_counterexample :
    (processCommand "add foo|bar|" emptyState envA).1.success = true ∧
    (processCommand "add foo|bar|" emptyState envA).2.features =
      [{ id := "u1", name := "foo", description := "bar", enabled := false, category := "", addedAt := "t1" }] :=
  ⟨by decide, by decide⟩

/-- C2 amended: the `add` command joins its arguments with single
spaces, splits on literal `|` and trims each segment; it fails and
creates nothing when fewer than 2 segments result or when the first
(name) or second (description) segment is empty; otherwise it creates
`{name: segment1, description: segment2, category: segment3,
enabled: false}`, where the category defaults to `"Custom"` only when
the third segment is absent — an empty third segment is kept as the
empty string. -/
theorem c2_add_semantics (input : String) (s : AppState) (env : Env)
    (hcmd : strToLower ((tokenize input).headD "") = "add") :
    ((addSegments (tokenize input).tail).length < 2 →
      (processCommand input s env).1.success = false ∧ (processCommand input s env).2 = s) ∧
    (2 ≤ (addSegments (tokenize input).tail).length →
      (((addSegments (tokenize input).tail).getD 0 "" = "" ∨ (addSegments (tokenize input).tail).getD 1 "" = "") →
        (processCommand input s env).1.success = false ∧ (processCommand input s env).2 = s) ∧
      ((addSegments (tokenize input).tail).getD 0 "" ≠ "" → (addSegments (tokenize input).tail).getD 1 "" ≠ "" →
        (processCommand input s env).1.success = true ∧
        (processCommand input s env).2 =
          addFeature s ((addSegments (tokenize input).tail).getD 0 "")
            ((addSegments (tokenize input).tail).getD 1 "")
            ((addSegments (tokenize input).tail).getD 2 "Custom") env)) := by
  unfold processCommand
  rw [hcmd, processCmd_add_eq]
  constructor
  · intro hlt
    rw [if_pos hlt]
    exact ⟨rfl, rfl⟩
  · intro hge
    have hnlt : ¬ ((addSegments (tokenize input).tail).length < 2) := by omega
    rw [if_neg hnlt]
    constructor
    · intro hor
      rw [if_pos hor]
      exact ⟨rfl, rfl⟩
    · intro hn hd
      rw [if_neg (by tauto)]
      exact ⟨rfl, rfl⟩

/-- C2 witness: `add foo | bar | baz` creates
`{name:"foo", description:"bar", category:"baz", enabled:false}`, and
`add foo|bar` (third segment absent) defaults the category to
`"Custom"`. -/
theorem c2_witness :
    (processCommand "add foo | bar | baz" emptyState envA).1.success = true ∧
    (processCommand "add foo | bar | baz" emptyState envA).2.features =
      [{ id := "u1", name := "foo", description := "bar", enabled := false, category := "baz", addedAt := "t1" }] ∧
    (processCommand "add foo|bar" emptyState envA).2.features =
      [{ id := "u1", name := "foo", description := "bar", enabled := false, category := "Custom", addedAt := "t1" }] := by
  have h1 := c2_add_semantics "add foo | bar | baz" emptyState envA (by decide)
  have h2 := c2_add_semantics "add foo|bar" emptyState envA (by decide)
  have g1 := (h1.2 (by decide)).2 (by decide) (by decide)
  have g2 := (h2.2 (by decide)).2 (by decide) (by decide)
  refine ⟨g1.1, ?_, ?_⟩
  · rw [g1.2]; decide
  · rw [g2.2]; decide

/-- Every token in the tail of a tokenised input is non-empty: on blank
input the tail is empty, and otherwise the tokens are the filtered
non-empty words of the trimmed input. -/
theorem tokenize_tail_ne (input : String) : ∀ a ∈ (tokenize input).tail, a ≠ "" := by
  unfold tokenize
  split
  · simp
  · intro a ha
    have hmem : a ∈ (splitBy Char.isWhitespace (strTrim input)).filter (fun w => w != "") :=
      List.mem_of_mem_tail ha
    have hne := (List.mem_filter.mp hmem).2
    simpa using hne

/-- C5: an `enable` (symmetrically `disable`) command with at least one
argument looks its target up by exact id match on the first argument OR
case-insensitive exact full-string name match on all arguments joined
with single spaces (`featureLookup`); if no feature matches, the
command fails and the store is unchanged; if the match is already in
the requested state, the command succeeds with an "already
enabled"/"already disabled" message and mutates nothing; otherwise
exactly the matched feature is toggled. -/
theorem c5_enable_disable (input : String) (s : AppState) (env : Env)
    (hargs : (tokenize input).tail ≠ []) :
    (strToLower ((tokenize input).headD "") = "enable" →
      (featureLookup s.features (tokenize input).tail = none →
        (processCommand input s env).1.success = false ∧ (processCommand input s env).2 = s) ∧
      (∀ f, featureLookup s.features (tokenize input).tail = some f →
        (f.enabled = true →
          (processCommand input s env).1.success = true ∧
          (processCommand input s env).1.message = f.name ++ " is already enabled." ∧
          (processCommand input s env).2 = s) ∧
        (f.enabled = false →
          (processCommand input s env).1.success = true ∧
          (processCommand input s env).2 = toggleFeature s f.id))) ∧
    (strToLower ((tokenize input).headD "") = "disable" →
      (featureLookup s.features (tokenize input).tail = none →
        (processCommand input s env).1.success = false ∧ (processCommand input s env).2 = s) ∧
      (∀ f, featureLookup s.features (tokenize input).tail = some f →
        (f.enabled = false →
          (processCommand input s env).1.success = true ∧
          (processCommand input s env).1.message = f.name ++ " is already disabled." ∧
          (processCommand input s env).2 = s) ∧
        (f.enabled = true →
          (processCommand input s env).1.success = true ∧
          (processCommand input s env).2 = toggleFeature s f.id))) := by
  have hid : (tokenize input).tail.headD "" ≠ "" := by
    cases hts : (tokenize input).tail with
    | nil => exact absurd hts hargs
    | cons a t =>
      have hmem := tokenize_tail_ne input a (by rw [hts]; exact List.mem_cons_self a t)
      simpa using hmem
  constructor
  · intro hcmd
    unfold processCommand
    rw [hcmd, processCmd_enable_eq, if_neg hid]
    constructor
    · intro hnone
      rw [hnone]
      exact ⟨rfl, rfl⟩
    · intro f hf
      rw [hf]
      dsimp only
      constructor
      · intro he
        rw [he]
        exact ⟨rfl, rfl, rfl⟩
      · intro he
        rw [he]
        exact ⟨rfl, rfl⟩
  · intro hcmd
    unfold processCommand
    rw [hcmd, processCmd_disable_eq, if_neg hid]
    constructor
    · intro hnone
      rw [hnone]
      exact ⟨rfl, rfl⟩
    · intro f hf
      rw [hf]
      dsimp only
      constructor
      · intro he
        rw [he]
        exact ⟨rfl, rfl, rfl⟩
      · intro he
        rw [he]
        exact ⟨rfl, rfl⟩

/-- C5 witness: on the demo store, `enable nosuch` fails without
mutating; `enable BETA` matches the feature named `Beta`
case-insensitively and reports it already enabled without mutating;
`enable d1` toggles exactly `d1`; `disable d2` toggles exactly `d2`. -/
theorem c5_witness :
    (processCommand "enable nosuch" demoState envA).1.success = false ∧
    (processCommand "enable nosuch" demoState envA).2 = demoState ∧
    (processCommand "enable BETA" demoState envA).1.message = "Beta is already enabled." ∧
    (processCommand "enable BETA" demoState envA).2 = demoState ∧
    (processCommand "enable d1" demoState envA).2 = toggleFeature demoState "d1" ∧
    (processCommand "disable d2" demoState envA).2 = toggleFeature demoState "d2" := by
  have h1 := (c5_enable_disable "enable nosuch" demoState envA (by decide)).1 (by decide)
  have h2 := (c5_enable_disable "enable BETA" demoState envA (by decide)).1 (by decide)
  have h3 := (c5_enable_disable "enable d1" demoState envA (by decide)).1 (by decide)
  have h4 := (c5_enable_disable "disable d2" demoState envA (by decide)).2 (by decide)
  have g1 := h1.1 (by decide)
  have g2 := (h2.2 demoB (by decide)).1 (by decide)
  have g3 := (h3.2 demoA (by decide)).2 (by decide)
  have g4 := (h4.2 demoB (by decide)).2 (by decide)
  exact ⟨g1.1, g1.2, g2.2.1, g2.2.2, g3.2, g4.2⟩
